import Mathlib

/-
Verification of the web-scrobbler metadata-normalization core.

Shallow embedding of:
  - src/core/content/filter.js   (MetadataFilter: filter compilation, field
    filtering, the regex-based filter rule tables and preset filters)
  - src/connectors/v2/youtube.js (the mutation-observer playback state
    machine, the isPlayerOffscreen predicates, processYoutubeVideoTitle)

JavaScript regexes used by the source are embedded through a small
backtracking regex engine (type RE below); each rule of the source's rule
tables is transcribed into an RE value, with the original regex literal kept
in a comment next to it.  JavaScript runtime values that flow through the
filter pipeline are modelled by JSVal (null, undefined, or a string), and a
JavaScript TypeError raised by calling a string method on null/undefined is
modelled by Except.error.
-/

/-- A JavaScript value that can reach the filter pipeline. -/
inductive JSVal where
  | null
  | undefined
  | str (s : String)
deriving DecidableEq

/-- A JavaScript runtime exception (calling a string method on a non-string). -/
inductive JSErr where
  | typeError
deriving DecidableEq

/-- A filter function: JS functions taking the current text; calling a string
method on null/undefined raises, modelled with Except. -/
def FilterFn : Type := JSVal → Except JSErr JSVal

/-- Characters matched by the JS regex class backslash-s (WhiteSpace and
LineTerminator productions of ECMA-262); this is also the character set
removed by String.prototype.trim. -/
def jsWsChar (c : Char) : Bool :=
  c == ' ' || c == '\t' || c == '\n' || c == '\u000B' || c == '\u000C' ||
  c == '\r' || c == '\u00A0' || c == '\u1680' ||
  (decide ('\u2000' ≤ c) && decide (c ≤ '\u200A')) ||
  c == '\u2028' || c == '\u2029' || c == '\u202F' || c == '\u205F' ||
  c == '\u3000' || c == '\uFEFF'

/-- Characters matched by the JS regex dot (anything but a line terminator). -/
def jsDotChar (c : Char) : Bool :=
  !(c == '\n' || c == '\r' || c == '\u2028' || c == '\u2029')

/-- Characters matched by the JS regex class [0-9] (also backslash-d). -/
def jsDigitChar (c : Char) : Bool :=
  decide ('0' ≤ c) && decide (c ≤ '9')

/-- Abstract syntax of the regex subset the source's rule tables use.  Every
starred/plus-ed subpattern of those rules is a single-character class, so the
quantifier constructors take a character class directly. -/
inductive RE where
  | emp
  | strLit (s : String) (ci : Bool)
  | cls (p : Char → Bool)
  | starC (p : Char → Bool)
  | plusC (p : Char → Bool)
  | lazyPlusC (p : Char → Bool)
  | optC (p : Char → Bool)
  | repC (p : Char → Bool) (n : Nat)
  | seq (a b : RE)
  | alt (a b : RE)
  | opt (r : RE)
  | group (i : Nat) (r : RE)
  | bol
  | eol

/-- Captured groups: group index paired with the captured text; the most
recent capture of an index is listed first. -/
def Caps : Type := List (Nat × String)

/-- Greedy star over a character class, in continuation-passing style:
consume as many class characters as possible, backtracking one at a time. -/
def matStar {σ : Type} (p : Char → Bool) (k : List Char → Nat → Option σ) :
    List Char → Nat → Option σ
  | [], pos => k [] pos
  | c :: rest, pos =>
    if p c then (matStar p k rest (pos + 1)) <|> k (c :: rest) pos
    else k (c :: rest) pos

/-- Lazy star over a character class: try the continuation first, consume a
character only when the continuation fails. -/
def matLazyStar {σ : Type} (p : Char → Bool) (k : List Char → Nat → Option σ) :
    List Char → Nat → Option σ
  | [], pos => k [] pos
  | c :: rest, pos =>
    (k (c :: rest) pos) <|> (if p c then matLazyStar p k rest (pos + 1) else none)

/-- Match a literal character sequence, case-insensitively when ci is set. -/
def matLit {σ : Type} (ci : Bool) (k : List Char → Nat → Option σ) :
    List Char → List Char → Nat → Option σ
  | [], cs, pos => k cs pos
  | _ :: _, [], _ => none
  | c :: ls, d :: rest, pos =>
    if (if ci then c.toLower == d.toLower else c == d) then
      matLit ci k ls rest (pos + 1)
    else none

/-- Match exactly n characters of a class. -/
def matRep {σ : Type} (p : Char → Bool) (k : List Char → Nat → Option σ) :
    Nat → List Char → Nat → Option σ
  | 0, cs, pos => k cs pos
  | _ + 1, [], _ => none
  | n + 1, c :: rest, pos => if p c then matRep p k n rest (pos + 1) else none

/-- Backtracking matcher in continuation-passing style.  cs is the remaining
input, pos the absolute position (for the bol anchor), caps the captures so
far; the continuation receives the state after this subpattern. -/
def matchCont {σ : Type} : RE → List Char → Nat → Caps →
    (List Char → Nat → Caps → Option σ) → Option σ
  | .emp, cs, pos, caps, k => k cs pos caps
  | .strLit s ci, cs, pos, caps, k =>
    matLit ci (fun cs' pos' => k cs' pos' caps) s.data cs pos
  | .cls p, cs, pos, caps, k =>
    match cs with
    | [] => none
    | c :: rest => if p c then k rest (pos + 1) caps else none
  | .starC p, cs, pos, caps, k => matStar p (fun cs' pos' => k cs' pos' caps) cs pos
  | .plusC p, cs, pos, caps, k =>
    match cs with
    | [] => none
    | c :: rest =>
      if p c then matStar p (fun cs' pos' => k cs' pos' caps) rest (pos + 1) else none
  | .lazyPlusC p, cs, pos, caps, k =>
    match cs with
    | [] => none
    | c :: rest =>
      if p c then matLazyStar p (fun cs' pos' => k cs' pos' caps) rest (pos + 1) else none
  | .optC p, cs, pos, caps, k =>
    match cs with
    | [] => k [] pos caps
    | c :: rest =>
      if p c then (k rest (pos + 1) caps) <|> k (c :: rest) pos caps
      else k (c :: rest) pos caps
  | .repC p n, cs, pos, caps, k => matRep p (fun cs' pos' => k cs' pos' caps) n cs pos
  | .seq a b, cs, pos, caps, k =>
    matchCont a cs pos caps (fun cs' pos' caps' => matchCont b cs' pos' caps' k)
  | .alt a b, cs, pos, caps, k =>
    (matchCont a cs pos caps k) <|> matchCont b cs pos caps k
  | .opt r, cs, pos, caps, k => (matchCont r cs pos caps k) <|> k cs pos caps
  | .group i r, cs, pos, caps, k =>
    matchCont r cs pos caps
      (fun cs' pos' caps' => k cs' pos' ((i, ((cs.take (pos' - pos)).asString)) :: caps'))
  | .bol, cs, pos, caps, k => if pos = 0 then k cs pos caps else none
  | .eol, cs, pos, caps, k => if cs.isEmpty then k cs pos caps else none

/-- Leftmost match search: try each start position left to right; on success
return (match start, match end, captures). -/
def searchFrom (re : RE) : List Char → Nat → Option (Nat × Nat × Caps)
  | cs, pos =>
    (matchCont re cs pos [] (fun _ pos' caps => some (pos, pos', caps))) <|>
      (match cs with
       | [] => none
       | _ :: rest => searchFrom re rest (pos + 1))

/-- Captured text of a group, empty string when the group did not capture
(JS substitutes the empty string for an unmatched group). -/
def capOr (caps : Caps) (i : Nat) : String :=
  match caps.find? (fun e => e.1 == i) with
  | some e => e.2
  | none => ""

/-- JS replacement-string expansion restricted to dollar-digit references
(the only forms the source's rule targets use: plain text and a group ref). -/
def expandChars (caps : Caps) : List Char → List Char
  | [] => []
  | '$' :: c :: rest =>
    if c.isDigit then (capOr caps (c.toNat - '0'.toNat)).data ++ expandChars caps rest
    else '$' :: expandChars caps (c :: rest)
  | c :: rest => c :: expandChars caps rest

/-- String.prototype.replace with a non-global regex: replace the leftmost
match only. -/
def replaceFirst (re : RE) (target : String) (s : String) : String :=
  match searchFrom re s.data 0 with
  | none => s
  | some (st, en, caps) =>
    ((s.data.take st) ++ expandChars caps target.data ++ s.data.drop en).asString

/-- Worker for global replacement; fuel bounds the number of matches (a
global replace performs at most length + 1 replacements). -/
def gReplace (re : RE) (target : String) : Nat → List Char → Nat → List Char
  | 0, cs, _ => cs
  | fuel + 1, cs, pos =>
    match searchFrom re cs pos with
    | none => cs
    | some (st, en, caps) =>
      let rel := st - pos
      let len := en - st
      (cs.take rel) ++ expandChars caps target.data ++
        (if len = 0 then
          match cs.drop rel with
          | [] => []
          | c :: rest => c :: gReplace re target fuel rest (st + 1)
        else gReplace re target fuel (cs.drop (rel + len)) en)

/-- String.prototype.replace with a global regex. -/
def replaceGlobal (re : RE) (target : String) (s : String) : String :=
  (gReplace re target (s.data.length + 1) s.data 0).asString

/-- A JS regex literal: the pattern plus its global flag (case-insensitivity
is baked into the transcribed pattern). -/
structure JSRegex where
  re : RE
  global : Bool

/-- One replace rule of a filter set: 'source' regex and 'target' replacement,
mirroring the rule objects of src/core/content/filter.js. -/
structure FilterRule where
  source : JSRegex
  target : String

/-- text.replace(source, target) dispatching on the global flag. -/
def jsReplace (text : String) (rx : JSRegex) (target : String) : String :=
  if rx.global then replaceGlobal rx.re target text else replaceFirst rx.re target text

/-- Sequence a list of regex fragments. -/
def reSeq (l : List RE) : RE := l.foldr RE.seq RE.emp

/-- A single literal character. -/
def chr (c : Char) : RE := RE.cls (fun d => d == c)

/-- A case-sensitive literal string. -/
def lit (s : String) : RE := RE.strLit s false

/-- A case-insensitive literal string (for rules with the i flag). -/
def liti (s : String) : RE := RE.strLit s true

/-- Case-insensitive single-character class (a letter under the i flag). -/
def chi (c : Char) : Char → Bool := fun d => d.toLower == c.toLower

/-- Build a FilterRule. -/
def rule (r : RE) (g : Bool) (t : String) : FilterRule := ⟨⟨r, g⟩, t⟩

/-- Character class of the rule trimming leading stray chars:
[\/\s,:;~-\s"] (the dash between a tilde and a class escape is literal). -/
def ytLeadTrimClass (c : Char) : Bool :=
  c == '/' || jsWsChar c || c == ',' || c == ':' || c == ';' ||
  c == '~' || c == '-' || c == '"'

/-- Character class of the rule trimming trailing stray chars:
[\/\s,:;~-\s"\s!] (the leading rule's class plus the exclamation mark). -/
def ytTailTrimClass (c : Char) : Bool :=
  ytLeadTrimClass c || c == '!'

/-- Remove leading and trailing JS whitespace from a character list. -/
def trimCharsList (l : List Char) : List Char :=
  ((l.dropWhile jsWsChar).reverse.dropWhile jsWsChar).reverse

/-- String.prototype.trim: strip WhiteSpace and LineTerminator characters
from both ends. -/
def jsTrim (s : String) : String := (trimCharsList s.data).asString

namespace MetadataFilter

/-- MetadataFilter.trim: text.trim(); a TypeError on null/undefined. -/
def trim : FilterFn := fun v =>
  match v with
  | .str s => .ok (.str (jsTrim s))
  | _ => .error .typeError

/-- MetadataFilter.filterWithFilterSet: fold text.replace over the rules. -/
def filterWithFilterSet (text : String) (set : List FilterRule) : String :=
  set.foldl (fun t d => jsReplace t d.source d.target) text

/-- MetadataFilter.YOUTUBE_TRACK_FILTERS, rule for rule; the original regex
literal of each rule is kept in the comment above it. -/
def YOUTUBE_TRACK_FILTERS : List FilterRule := [
  -- Trim whitespaces: /^\s+|\s+$/g
  rule (RE.alt (reSeq [RE.bol, RE.plusC jsWsChar]) (reSeq [RE.plusC jsWsChar, RE.eol])) true "",
  -- **NEW**: /\s*\*+\s?\S+\s?\*+$/
  rule (reSeq [RE.starC jsWsChar, RE.plusC (fun c => c == '*'), RE.optC jsWsChar,
    RE.plusC (fun c => !jsWsChar c), RE.optC jsWsChar, RE.plusC (fun c => c == '*'), RE.eol]) false "",
  -- [whatever]: /\s*\[[^\]]+\]$/
  rule (reSeq [RE.starC jsWsChar, chr '[', RE.plusC (fun c => c != ']'), chr ']', RE.eol]) false "",
  -- (whatever version): /\s*\([^\)]*version\)$/i
  rule (reSeq [RE.starC jsWsChar, chr '(', RE.starC (fun c => c != ')'), liti "version",
    chr ')', RE.eol]) false "",
  -- video extensions: /\s*\.(avi|wmv|mpg|mpeg|flv)$/i
  rule (reSeq [RE.starC jsWsChar, chr '.',
    RE.group 1 (RE.alt (liti "avi") (RE.alt (liti "wmv") (RE.alt (liti "mpg")
      (RE.alt (liti "mpeg") (liti "flv"))))), RE.eol]) false "",
  -- (LYRIC VIDEO): /\s*(LYRIC VIDEO\s*)?(lyric video\s*)/i
  rule (reSeq [RE.starC jsWsChar,
    RE.opt (RE.group 1 (RE.seq (liti "LYRIC VIDEO") (RE.starC jsWsChar))),
    RE.group 2 (RE.seq (liti "lyric video") (RE.starC jsWsChar))]) false "",
  -- (Official Track Stream): /\s*(Official Track Stream*)/i
  rule (reSeq [RE.starC jsWsChar,
    RE.group 1 (RE.seq (liti "Official Track Strea") (RE.starC (chi 'm')))]) false "",
  -- (official)? (music)? video: /\s*(of+icial\s*)?(music\s*)?video/i
  rule (reSeq [RE.starC jsWsChar,
    RE.opt (RE.group 1 (reSeq [RE.cls (chi 'o'), RE.plusC (chi 'f'), liti "icial", RE.starC jsWsChar])),
    RE.opt (RE.group 2 (RE.seq (liti "music") (RE.starC jsWsChar))), liti "video"]) false "",
  -- (official)? (music)? audio: /\s*(of+icial\s*)?(music\s*)?audio/i
  rule (reSeq [RE.starC jsWsChar,
    RE.opt (RE.group 1 (reSeq [RE.cls (chi 'o'), RE.plusC (chi 'f'), liti "icial", RE.starC jsWsChar])),
    RE.opt (RE.group 2 (RE.seq (liti "music") (RE.starC jsWsChar))), liti "audio"]) false "",
  -- (ALBUM TRACK): /\s*(ALBUM TRACK\s*)?(album track\s*)/i
  rule (reSeq [RE.starC jsWsChar,
    RE.opt (RE.group 1 (RE.seq (liti "ALBUM TRACK") (RE.starC jsWsChar))),
    RE.group 2 (RE.seq (liti "album track") (RE.starC jsWsChar))]) false "",
  -- (Cover Art): /\s*(COVER ART\s*)?(Cover Art\s*)/i
  rule (reSeq [RE.starC jsWsChar,
    RE.opt (RE.group 1 (RE.seq (liti "COVER ART") (RE.starC jsWsChar))),
    RE.group 2 (RE.seq (liti "Cover Art") (RE.starC jsWsChar))]) false "",
  -- (official): /\s*\(\s*of+icial\s*\)/i
  rule (reSeq [RE.starC jsWsChar, chr '(', RE.starC jsWsChar, RE.cls (chi 'o'),
    RE.plusC (chi 'f'), liti "icial", RE.starC jsWsChar, chr ')']) false "",
  -- (1999): /\s*\(\s*[0-9]{4}\s*\)/i
  rule (reSeq [RE.starC jsWsChar, chr '(', RE.starC jsWsChar, RE.repC jsDigitChar 4,
    RE.starC jsWsChar, chr ')']) false "",
  -- HD (HQ): /\s+\(\s*(HD|HQ)\s*\)$/
  rule (reSeq [RE.plusC jsWsChar, chr '(', RE.starC jsWsChar,
    RE.group 1 (RE.alt (lit "HD") (lit "HQ")), RE.starC jsWsChar, chr ')', RE.eol]) false "",
  -- HD (HQ): /\s+(HD|HQ)\s*$/
  rule (reSeq [RE.plusC jsWsChar, RE.group 1 (RE.alt (lit "HD") (lit "HQ")),
    RE.starC jsWsChar, RE.eol]) false "",
  -- video clip: /\s*video\s*clip/i
  rule (reSeq [RE.starC jsWsChar, liti "video", RE.starC jsWsChar, liti "clip"]) false "",
  -- Full Album: /\s*full\s*album/i
  rule (reSeq [RE.starC jsWsChar, liti "full", RE.starC jsWsChar, liti "album"]) false "",
  -- live: /\s+\(?live\)?$/i
  rule (reSeq [RE.plusC jsWsChar, RE.optC (fun c => c == '('), liti "live",
    RE.optC (fun c => c == ')'), RE.eol]) false "",
  -- Leftovers after e.g. (official video): /\(+\s*\)+/
  rule (reSeq [RE.plusC (fun c => c == '('), RE.starC jsWsChar,
    RE.plusC (fun c => c == ')')]) false "",
  -- Artist - The new "Track title" featuring someone: /^(|.*\s)"(.*)"(\s.*|)$/  target $2
  rule (reSeq [RE.bol,
    RE.group 1 (RE.alt RE.emp (RE.seq (RE.starC jsDotChar) (RE.cls jsWsChar))), chr '"',
    RE.group 2 (RE.starC jsDotChar), chr '"',
    RE.group 3 (RE.alt (RE.seq (RE.cls jsWsChar) (RE.starC jsDotChar)) RE.emp),
    RE.eol]) false "$2",
  -- single-quoted Track title: /^(|.*\s)\'(.*)\'(\s.*|)$/  target $2
  rule (reSeq [RE.bol,
    RE.group 1 (RE.alt RE.emp (RE.seq (RE.starC jsDotChar) (RE.cls jsWsChar))), chr '\'',
    RE.group 2 (RE.starC jsDotChar), chr '\'',
    RE.group 3 (RE.alt (RE.seq (RE.cls jsWsChar) (RE.starC jsDotChar)) RE.emp),
    RE.eol]) false "$2",
  -- trim starting white chars and dash: /^[\/\s,:;~-\s"]+/
  rule (reSeq [RE.bol, RE.plusC ytLeadTrimClass]) false "",
  -- trim trailing white chars and dash: /[\/\s,:;~-\s"\s!]+$/
  rule (reSeq [RE.plusC ytTailTrimClass, RE.eol]) false ""]

/-- MetadataFilter.REMASTERED_FILTERS, rule for rule. -/
def REMASTERED_FILTERS : List FilterRule := [
  -- Here Comes The Sun - Remastered: /\-\sRemastered$/
  rule (reSeq [chr '-', RE.cls jsWsChar, lit "Remastered", RE.eol]) false "",
  -- Hey Jude - Remastered 2015: /\-\sRemastered\s\d+$/
  rule (reSeq [chr '-', RE.cls jsWsChar, lit "Remastered", RE.cls jsWsChar,
    RE.plusC jsDigitChar, RE.eol]) false "",
  -- Let It Be (Remastered 2009): /\(Remastered\s\d+\)$/
  rule (reSeq [chr '(', lit "Remastered", RE.cls jsWsChar, RE.plusC jsDigitChar,
    chr ')', RE.eol]) false "",
  -- Pigs On The Wing (Part One) [2011 - Remaster]: /\[\d+\s-\sRemaster\]$/
  rule (reSeq [chr '[', RE.plusC jsDigitChar, RE.cls jsWsChar, chr '-', RE.cls jsWsChar,
    lit "Remaster", chr ']', RE.eol]) false "",
  -- Comfortably Numb (2011 - Remaster): /\(\d+\s-\sRemaster\)$/
  rule (reSeq [chr '(', RE.plusC jsDigitChar, RE.cls jsWsChar, chr '-', RE.cls jsWsChar,
    lit "Remaster", chr ')', RE.eol]) false "",
  -- Outside The Wall - 2011 - Remaster: /\-\s\d+\s\-\sRemaster$/
  rule (reSeq [chr '-', RE.cls jsWsChar, RE.plusC jsDigitChar, RE.cls jsWsChar, chr '-',
    RE.cls jsWsChar, lit "Remaster", RE.eol]) false "",
  -- Learning To Fly - 2001 Digital Remaster: /\-\s\d+\s.+?\sRemaster$/
  rule (reSeq [chr '-', RE.cls jsWsChar, RE.plusC jsDigitChar, RE.cls jsWsChar,
    RE.lazyPlusC jsDotChar, RE.cls jsWsChar, lit "Remaster", RE.eol]) false "",
  -- Your Possible Pasts - 2011 Remastered Version: /\-\s\d+\sRemastered Version$/
  rule (reSeq [chr '-', RE.cls jsWsChar, RE.plusC jsDigitChar, RE.cls jsWsChar,
    lit "Remastered Version", RE.eol]) false "",
  -- Roll Over Beethoven (Live / Remastered): /\(Live\s\/\sRemastered\)$/i
  rule (reSeq [chr '(', liti "Live", RE.cls jsWsChar, chr '/', RE.cls jsWsChar,
    liti "Remastered", chr ')', RE.eol]) false "",
  -- Ticket To Ride - Live / Remastered: /\-\sLive\s\/\sRemastered$/
  rule (reSeq [chr '-', RE.cls jsWsChar, lit "Live", RE.cls jsWsChar, chr '/',
    RE.cls jsWsChar, lit "Remastered", RE.eol]) false ""]

/-- MetadataFilter.youtube: filterWithFilterSet over the Youtube rules; a
TypeError when called on null/undefined (text.replace would throw). -/
def youtube : FilterFn := fun v =>
  match v with
  | .str s => .ok (.str (filterWithFilterSet s YOUTUBE_TRACK_FILTERS))
  | _ => .error .typeError

/-- MetadataFilter.removeRemastered: filterWithFilterSet over
REMASTERED_FILTERS. -/
def removeRemastered : FilterFn := fun v =>
  match v with
  | .str s => .ok (.str (filterWithFilterSet s REMASTERED_FILTERS))
  | _ => .error .typeError

end MetadataFilter

/-- A property of the filter-set configuration object handed to the
MetadataFilter constructor: a single function, an array of functions, or
anything else (absent, wrong shape). -/
inductive FilterEntry where
  | fn (f : FilterFn)
  | arr (fs : List FilterFn)
  | other

/-- The filter-set configuration object: optional artist/track/album/all
entries. -/
structure FilterSetCfg where
  artist : FilterEntry
  track : FilterEntry
  album : FilterEntry
  all : FilterEntry

/-- A metadata field name. -/
inductive FieldName where
  | artist
  | track
  | album
deriving DecidableEq

/-- Look up the configuration entry of a field. -/
def FilterSetCfg.get (c : FilterSetCfg) : FieldName → FilterEntry
  | .artist => c.artist
  | .track => c.track
  | .album => c.album

namespace MetadataFilter

/-- createFilters of src/core/content/filter.js: a function becomes a
one-element array, an array passes through, anything else becomes []. -/
def createFilters : FilterEntry → List FilterFn
  | .fn f => [f]
  | .arr fs => fs
  | .other => []

/-- createMergedFilters: per field, the field's own filters followed by the
filters of the 'all' entry. -/
def createMergedFilters (filterSet : FilterSetCfg) (field : FieldName) : List FilterFn :=
  createFilters (filterSet.get field) ++ createFilters filterSet.all

/-- The forEach chain of filterField: each filter consumes the previous
output; a raised exception aborts the whole call and propagates. -/
def chainApply (filters : List FilterFn) (text : JSVal) : Except JSErr JSVal :=
  filters.foldlM (fun t f => f t) text

/-- filterField: identity on null and the empty string, otherwise the filter
chain. -/
def filterField (text : JSVal) (filters : List FilterFn) : Except JSErr JSVal :=
  if text = JSVal.null ∨ text = JSVal.str "" then .ok text
  else chainApply filters text

/-- this.filterArtist of a MetadataFilter built from the configuration. -/
def filterArtist (cfg : FilterSetCfg) (text : JSVal) : Except JSErr JSVal :=
  filterField text (createMergedFilters cfg .artist)

/-- this.filterTrack of a MetadataFilter built from the configuration. -/
def filterTrack (cfg : FilterSetCfg) (text : JSVal) : Except JSErr JSVal :=
  filterField text (createMergedFilters cfg .track)

/-- this.filterAlbum of a MetadataFilter built from the configuration. -/
def filterAlbum (cfg : FilterSetCfg) (text : JSVal) : Except JSErr JSVal :=
  filterField text (createMergedFilters cfg .album)

/-- MetadataFilter.getTrimFilter's configuration object. -/
def getTrimFilter : FilterSetCfg := ⟨.fn trim, .fn trim, .fn trim, .other⟩

/-- MetadataFilter.getYoutubeFilter's configuration object:
track gets the youtube filter, all fields get trim. -/
def getYoutubeFilter : FilterSetCfg := ⟨.other, .fn youtube, .other, .fn trim⟩

/-- MetadataFilter.getRemasteredFilter's configuration object: all fields get
trim, track and album additionally get removeRemastered. -/
def getRemasteredFilter : FilterSetCfg := ⟨.other, .fn removeRemastered, .fn removeRemastered, .fn trim⟩

end MetadataFilter

/-- Modelled from the spec's words only (normalize of section 4.1), to be
compared with createFilters: a single function becomes a one-element
sequence, a sequence passes through unchanged, any other input becomes the
empty sequence. -/
def normalizeSpec : FilterEntry → List FilterFn
  | .fn f => [f]
  | .arr fs => fs
  | .other => []

/-- The action a single mutation-observer callback performs besides updating
the flag: attaching the timeupdate listener (the 'became active' action) or
signalling Connector.onStateChanged. -/
inductive DetAction where
  | becameActive
  | stateChanged
deriving DecidableEq

/-- One mutation-observer callback of setupMutationObserver
(src/connectors/v2/youtube.js): the state is the isMusicVideoPresent flag,
the event is the value Connector.isPlayerOffscreen() returns.  Offscreen:
signal onStateChanged (flag untouched).  On-surface with the flag set:
return (no action).  On-surface with the flag clear: attach the timeupdate
listener and set the flag. -/
def detectorStep (isMusicVideoPresent : Bool) (isOffscreen : Bool) :
    Bool × Option DetAction :=
  if isOffscreen then (isMusicVideoPresent, some .stateChanged)
  else if isMusicVideoPresent then (isMusicVideoPresent, none)
  else (true, some .becameActive)

/-- Run the observer callback over a sequence of mutation events, collecting
the action (if any) of each callback. -/
def detectorRun : Bool → List Bool → Bool × List (Option DetAction)
  | s, [] => (s, [])
  | s, e :: es =>
    match detectorStep s e with
    | (s', a) =>
      match detectorRun s' es with
      | (s'', acts) => (s'', a :: acts)

/-- The offset object jQuery's .offset() returns for the anchor element. -/
structure JQOffset where
  left : Int
  top : Int

/-- Connector.isPlayerOffscreen of the default player: none models an empty
jQuery selection for '#player-api' (length 0), in which case the player is
reported on-screen; otherwise offscreen iff offset.left < 0 or offset.top < 0. -/
def isPlayerOffscreenDefault (player : Option JQOffset) : Bool :=
  match player with
  | none => false
  | some offset => decide (offset.left < 0) || decide (offset.top < 0)

/-- Connector.isPlayerOffscreen of the Material player: none models an empty
jQuery selection for '#player-container'; otherwise offscreen iff
offset.left <= 0 or offset.top <= 0. -/
def isPlayerOffscreenMaterial (player : Option JQOffset) : Bool :=
  match player with
  | none => false
  | some offset => decide (offset.left ≤ 0) || decide (offset.top ≤ 0)

/-- The genre-strip regex of processYoutubeVideoTitle: /^\[[^\]]+\]\s*-*\s*/i -/
def genreRE : RE :=
  reSeq [RE.bol, chr '[', RE.plusC (fun c => c != ']'), chr ']', RE.starC jsWsChar,
    RE.starC (fun c => c == '-'), RE.starC jsWsChar]

/-- text.replace(genreRE, '') — strip a leading [genre] tag. -/
def stripGenre (s : String) : String := replaceFirst genreRE "" s

/-- The quoted-title fallback regex of processYoutubeVideoTitle:
/(.+?)\s"(.+?)"/ -/
def quotedTitleRE : RE :=
  reSeq [RE.group 1 (RE.lazyPlusC jsDotChar), RE.cls jsWsChar, chr '"',
    RE.group 2 (RE.lazyPlusC jsDotChar), chr '"']

/-- text.match(quotedTitleRE): on a match, (match[1], match[2]). -/
def matchQuoted (s : String) : Option (String × String) :=
  match searchFrom quotedTitleRE s.data 0 with
  | some (_, _, caps) => some (capOr caps 1, capOr caps 2)
  | none => none

/-- processYoutubeVideoTitle: falsy input gives both fields null; otherwise
strip the leading genre tag, delegate to the injected
Connector.splitArtistTrack, and when that returns null for both fields fall
back to the quoted-title match. -/
def processYoutubeVideoTitle (splitArtistTrack : String → Option String × Option String)
    (text : JSVal) : Option String × Option String :=
  match text with
  | .str s =>
    if s = "" then (none, none)
    else
      let t := stripGenre s
      let r := splitArtistTrack t
      if r.1 = none ∧ r.2 = none then
        match matchQuoted t with
        | some (a, b) => (some a, some b)
        | none => (none, none)
      else r
  | _ => (none, none)

deriving instance DecidableEq for Except

/-- The head of a dropWhile result never satisfies the predicate. -/
theorem dropWhile_head_not (p : Char → Bool) :
    ∀ (l : List Char) (a : Char) (t : List Char), l.dropWhile p = a :: t → p a = false
  | [], a, t, h => by simp [List.dropWhile] at h
  | c :: l, a, t, h => by
    by_cases hc : p c
    · exact dropWhile_head_not p l a t (by simpa [List.dropWhile_cons, hc] using h)
    · rw [List.dropWhile_cons, if_neg (by simpa using hc)] at h
      cases h
      simpa using hc

/-- dropWhile over a list ending in a character outside the class keeps that
last character. -/
theorem dropWhile_append_single (p : Char → Bool) (a : Char) (h : p a = false) :
    ∀ X : List Char, (X ++ [a]).dropWhile p = X.dropWhile p ++ [a]
  | [] => by simp [List.dropWhile, h]
  | c :: X => by
    by_cases hc : p c
    · simp only [List.cons_append, List.dropWhile_cons, hc, if_true]
      exact dropWhile_append_single p a h X
    · simp [List.dropWhile_cons, hc]

/-- Trimming a character list is idempotent. -/
theorem trimCharsList_idem (l : List Char) :
    trimCharsList (trimCharsList l) = trimCharsList l := by
  unfold trimCharsList
  cases hA : l.dropWhile jsWsChar with
  | nil => simp
  | cons a t =>
    have ha : jsWsChar a = false := dropWhile_head_not _ _ _ _ hA
    rw [List.reverse_cons, dropWhile_append_single _ _ ha, List.reverse_append]
    simp only [List.reverse_cons, List.reverse_nil, List.nil_append, List.singleton_append]
    rw [List.dropWhile_cons, if_neg (by simp [ha]), List.reverse_cons,
      dropWhile_append_single _ _ ha, List.reverse_reverse, List.dropWhile_idempotent]
    simp

/-- JS trim is idempotent. -/
theorem jsTrim_idem (s : String) : jsTrim (jsTrim s) = jsTrim s := by
  unfold jsTrim
  rw [show (trimCharsList s.data).asString.data = trimCharsList s.data from rfl,
    trimCharsList_idem]

/-- A raised exception inside the forEach chain propagates: once the prefix
has produced v and the next filter raises e, the whole chain raises e,
whatever filters follow. -/
theorem chainApply_fault (f : FilterFn) (e : JSErr) :
    ∀ (pre : List FilterFn) (text v : JSVal),
      MetadataFilter.chainApply pre text = .ok v → f v = .error e →
        ∀ post, MetadataFilter.chainApply (pre ++ f :: post) text = .error e
  | [], text, v, hpre, hf, post => by
    have htv : Except.ok text = Except.ok (ε := JSErr) v := hpre
    cases htv
    simp only [List.nil_append]
    unfold MetadataFilter.chainApply
    rw [List.foldlM_cons, hf]
    rfl
  | g :: pre, text, v, hpre, hf, post => by
    unfold MetadataFilter.chainApply at hpre ⊢
    rw [List.foldlM_cons] at hpre
    rw [List.cons_append, List.foldlM_cons]
    cases hg : g text with
    | error e' =>
      rw [hg] at hpre
      exact Except.noConfusion (show Except.error e' = Except.ok v from hpre)
    | ok w =>
      rw [hg] at hpre
      exact chainApply_fault f e pre w v hpre hf post

/-- A chain consisting only of trim filters fixes an already-trimmed string. -/
theorem chainApply_trims_fixed :
    ∀ (fs : List FilterFn), (∀ f ∈ fs, f = MetadataFilter.trim) →
      ∀ s : String, MetadataFilter.chainApply fs (.str (jsTrim s)) = .ok (.str (jsTrim s))
  | [], _, s => rfl
  | g :: fs, h, s => by
    have hg : g = MetadataFilter.trim := h g (by simp)
    have htr : MetadataFilter.trim (.str (jsTrim s)) = .ok (.str (jsTrim s)) := by
      show Except.ok (JSVal.str (jsTrim (jsTrim s))) = _
      rw [jsTrim_idem]
    unfold MetadataFilter.chainApply
    rw [List.foldlM_cons, hg, htr]
    exact chainApply_trims_fixed fs (fun f hf => h f (by simp [hf])) s

/-- A filter function that raises on every input, modelling a
FilterFunction with an unexpected internal fault. -/
def boomFilter : FilterFn := fun _ => .error .typeError

/-- createFilters implements exactly the spec's normalize. -/
theorem createFilters_eq_normalizeSpec (e : FilterEntry) :
    MetadataFilter.createFilters e = normalizeSpec e := by
  cases e <;> rfl

set_option maxRecDepth 1000000

/-- Claim C1: started with the isMusicVideoPresent flag clear and fed the
mutation events [on-surface, on-surface, off-surface, on-surface], the
detector attaches the timeupdate listener exactly once, on the first event;
fires onStateChanged exactly once, on the off-surface event; and does
nothing on the second (and fourth) on-surface events. -/
theorem detector_on_on_off_on :
    detectorRun false [false, false, true, false] =
      (true, [some .becameActive, none, some .stateChanged, none]) ∧
    (detectorRun false [false, false, true, false]).2.count (some .becameActive) = 1 ∧
    (detectorRun false [false, false, true, false]).2.count (some .stateChanged) = 1 ∧
    (detectorRun false [false, false, true, false]).2.get? 0 = some (some .becameActive) ∧
    (detectorRun false [false, false, true, false]).2.get? 2 = some (some .stateChanged) ∧
    (detectorRun false [false, false, true, false]).2.get? 1 = some none := by
  decide

/-- Claim C2: filter compilation never fails and, for every configuration
and every field, yields normalize(field entry) ++ normalize(all entry),
where normalize maps a single function to a one-element list, an array to
itself and anything else to the empty list. -/
theorem createMergedFilters_spec (cfg : FilterSetCfg) (field : FieldName) :
    MetadataFilter.createMergedFilters cfg field =
      normalizeSpec (cfg.get field) ++ normalizeSpec cfg.all := by
  unfold MetadataFilter.createMergedFilters
  rw [createFilters_eq_normalizeSpec, createFilters_eq_normalizeSpec]

/-- Claim C3: for every compiled filter list, filtering null returns null and
filtering the empty string returns the empty string, without consulting the
filters (the result does not depend on them). -/
theorem filterField_null_empty (filters : List FilterFn) :
    MetadataFilter.filterField JSVal.null filters = .ok JSVal.null ∧
    MetadataFilter.filterField (JSVal.str "") filters = .ok (JSVal.str "") := by
  constructor <;> simp [MetadataFilter.filterField]

/-- Claim C4: processYoutubeVideoTitle returns (null, null) on falsy input;
when the injected primary splitter returns null for both fields the result
is decided by the quoted-title fallback match on the genre-stripped text
(null, null when that fails too); and on the input Artist Name "Track Title"
with a primary splitter returning null twice it yields
(Artist Name, Track Title).  The function is total, hence never throws. -/
theorem processYoutubeVideoTitle_spec :
    (∀ (split : String → Option String × Option String) (t : JSVal),
      (t = JSVal.null ∨ t = JSVal.undefined ∨ t = JSVal.str "") →
        processYoutubeVideoTitle split t = (none, none)) ∧
    (∀ (split : String → Option String × Option String) (s : String),
      s ≠ "" → split (stripGenre s) = (none, none) →
        processYoutubeVideoTitle split (JSVal.str s) =
          (match matchQuoted (stripGenre s) with
           | some (a, b) => (some a, some b)
           | none => (none, none))) ∧
    processYoutubeVideoTitle (fun _ => (none, none))
        (JSVal.str "Artist Name \"Track Title\"") =
      (some "Artist Name", some "Track Title") := by
  refine ⟨?_, ?_, by decide⟩
  · rintro split t (rfl | rfl | rfl) <;> simp [processYoutubeVideoTitle]
  · intro split s hs hsplit
    simp [processYoutubeVideoTitle, hs, hsplit]

/-- Claim C5: the Youtube noise preset filter maps the track-field input
Rick Astley - Never Gonna Give You Up (Official Music Video) to
Rick Astley - Never Gonna Give You Up. -/
theorem youtubeFilter_rick_astley :
    MetadataFilter.filterTrack MetadataFilter.getYoutubeFilter
        (.str "Rick Astley - Never Gonna Give You Up (Official Music Video)") =
      .ok (.str "Rick Astley - Never Gonna Give You Up") := by
  decide

/-- Claim C6: when the anchor-element query returns an empty selection, both
the default-player and the Material-player offscreen predicates report the
player as on-screen (fail-open). -/
theorem isPlayerOffscreen_fail_open :
    isPlayerOffscreenDefault none = false ∧ isPlayerOffscreenMaterial none = false :=
  ⟨rfl, rfl⟩

/-- Claim C7: the remastered preset filter maps the track-field input
Let It Be (Remastered 2009) to Let It Be (RemasteredStrip first, then the
all-fields Trim removes the leftover trailing whitespace). -/
theorem remasteredFilter_let_it_be :
    MetadataFilter.filterTrack MetadataFilter.getRemasteredFilter
        (.str "Let It Be (Remastered 2009)") =
      .ok (.str "Let It Be") := by
  decide

/-- Claim C8 counterexample: with the trim filter followed by a filter that
raises, filtering " a " raises instead of returning the partially filtered
string "a" — the fault propagates to the caller, contrary to the claim. -/
theorem filterField_fault_not_contained :
    MetadataFilter.filterField (.str " a ") [MetadataFilter.trim, boomFilter] =
      .error .typeError := by
  decide

/-- Claim C8 as amended: a fault raised by a FilterFunction propagates out
of the field-filtering operation (the filters after the faulting one never
run and the partially filtered string is discarded). -/
theorem filterField_fault_propagates (text : JSVal) (pre post : List FilterFn)
    (f : FilterFn) (v : JSVal) (e : JSErr) (hn : text ≠ JSVal.null)
    (he : text ≠ JSVal.str "") (hpre : MetadataFilter.chainApply pre text = .ok v)
    (hf : f v = .error e) :
    MetadataFilter.filterField text (pre ++ f :: post) = .error e := by
  unfold MetadataFilter.filterField
  rw [if_neg (fun hc => hc.elim hn he)]
  exact chainApply_fault f e pre text v hpre hf post

/-- Claim C8 witness: the amended theorem at the concrete input " b " with
pre = [trim], the faulting filter and no trailing filters. -/
theorem filterField_fault_propagates_witness :
    MetadataFilter.filterField (.str " b ") ([MetadataFilter.trim] ++ boomFilter :: []) =
      .error .typeError :=
  filterField_fault_propagates (.str " b ") [MetadataFilter.trim] [] boomFilter
    (.str "b") .typeError (by decide) (by decide) (by decide) rfl

/-- Claim C9: JS trim is idempotent, and a field filter whose compiled list
consists only of trim filters is idempotent: re-filtering the result of a
filtering changes nothing. -/
theorem trim_filter_idempotent :
    (∀ s : String, jsTrim (jsTrim s) = jsTrim s) ∧
    (∀ (filters : List FilterFn), (∀ f ∈ filters, f = MetadataFilter.trim) →
      ∀ text : JSVal,
        (MetadataFilter.filterField text filters) >>=
            (fun t => MetadataFilter.filterField t filters) =
          MetadataFilter.filterField text filters) := by
  refine ⟨jsTrim_idem, ?_⟩
  intro filters h text
  cases text with
  | null =>
    have h1 : MetadataFilter.filterField JSVal.null filters = .ok JSVal.null := by
      simp [MetadataFilter.filterField]
    rw [h1]
    exact h1
  | undefined =>
    cases filters with
    | nil =>
      have h1 : MetadataFilter.filterField JSVal.undefined [] = .ok JSVal.undefined := by
        unfold MetadataFilter.filterField
        rw [if_neg (by simp)]
        rfl
      rw [h1]
      exact h1
    | cons g fs =>
      have hg : g = MetadataFilter.trim := h g (by simp)
      have h1 : MetadataFilter.filterField JSVal.undefined (g :: fs) = .error .typeError := by
        unfold MetadataFilter.filterField
        rw [if_neg (by simp)]
        unfold MetadataFilter.chainApply
        rw [List.foldlM_cons, hg]
        rfl
      rw [h1]
      rfl
  | str s =>
    by_cases hs : s = ""
    · subst hs
      have h1 : MetadataFilter.filterField (JSVal.str "") filters = .ok (JSVal.str "") := by
        simp [MetadataFilter.filterField]
      rw [h1]
      exact h1
    · cases filters with
      | nil =>
        have h1 : MetadataFilter.filterField (JSVal.str s) [] = .ok (JSVal.str s) := by
          unfold MetadataFilter.filterField
          rw [if_neg (by simp [hs])]
          rfl
        rw [h1]
        exact h1
      | cons g fs =>
        have hg : g = MetadataFilter.trim := h g (by simp)
        have h1 : MetadataFilter.filterField (JSVal.str s) (g :: fs) =
            .ok (.str (jsTrim s)) := by
          unfold MetadataFilter.filterField
          rw [if_neg (by simp [hs])]
          unfold MetadataFilter.chainApply
          rw [List.foldlM_cons, hg,
            show MetadataFilter.trim (.str s) = .ok (.str (jsTrim s)) from rfl]
          exact chainApply_trims_fixed fs (fun f hf => h f (by simp [hf])) s
        rw [h1]
        by_cases ht : jsTrim s = ""
        · show MetadataFilter.filterField (.str (jsTrim s)) (g :: fs) = _
          rw [ht]
          simp [MetadataFilter.filterField]
        · show MetadataFilter.filterField (.str (jsTrim s)) (g :: fs) = _
          unfold MetadataFilter.filterField
          rw [if_neg (by simp [ht])]
          unfold MetadataFilter.chainApply
          rw [List.foldlM_cons, hg]
          have htr2 : MetadataFilter.trim (.str (jsTrim s)) = .ok (.str (jsTrim s)) := by
            show Except.ok (JSVal.str (jsTrim (jsTrim s))) = _
            rw [jsTrim_idem]
          rw [htr2]
          exact chainApply_trims_fixed fs (fun f hf => h f (by simp [hf])) s

/-- Claim C10: the field filter short-circuits exactly on null and the empty
string: every other value, undefined included, is handed to the filter
chain; in particular an undefined field value reaches trim, which raises a
TypeError, instead of being returned unchanged as missing data. -/
theorem filterField_shortcircuit_only_null_empty :
    (∀ (text : JSVal) (filters : List FilterFn),
      text ≠ JSVal.null → text ≠ JSVal.str "" →
        MetadataFilter.filterField text filters =
          MetadataFilter.chainApply filters text) ∧
    MetadataFilter.filterField JSVal.undefined [MetadataFilter.trim] =
      .error .typeError := by
  constructor
  · intro text filters hn he
    unfold MetadataFilter.filterField
    rw [if_neg (fun hc => hc.elim hn he)]
  · decide
